import Mathlib

/-!
Verification of the active-record core of Go-Starter-Project
(`pkg/models/table_record/table_record.go`).

The Go code is shallowly embedded: each Go function becomes a Lean
function in explicit state-passing style.  The external SQL connector
(an outside collaborator, per the spec) is modelled as a concrete row
store plus fault-injection fields, so that every connector operation can
either succeed or return an error carrying a message, exactly like the
`error` values the Go connector produces.  Go's in-place mutation of the
entity becomes returning an updated entity value; each connector
interaction is additionally recorded in an event trace so that claims
about which statements reach the connector, and in which order, can be
stated.
-/

namespace TableRecord

/-- Column values are modelled opaquely as integers. -/
abbrev Value := Int

/-- A stored row: the auto-increment primary key plus the non-key column
values in field-mapper order. -/
structure Row where
  id : Int
  fields : List Value
deriving Repr, DecidableEq

/-- The parametrized statements the core hands to the connector.  The Go
code renders these as SQL strings; the embedding keeps them structured
(table name, column list, primary-key name, or the builder's staged
clauses) since only their shape matters to the connector model. -/
inductive Query
  | insert (table : String) (cols : List String)
  | update (table : String) (cols : List String) (pk : String)
  | delete (table : String) (pk : String)
  | selectById (table : String) (cols : List String) (pk : String)
  | selectAll (table : String) (cols : List String)
  | built (table : String) (clauses : List String)
deriving Repr, DecidableEq

/-- One interaction with the external connector. -/
inductive Event
  | exec (q : Query) (params : List Value)
  | lastInsertId
  | prepare (q : Query)
  | queryRows (params : List Value)
  | structScan
  | rowsAffected
deriving Repr, DecidableEq

/-- Errors surfaced to callers: the local read-only guard
(`errors.New("Read-only model")`) or an error coming from the connector,
carrying the connector's message unchanged. -/
inductive Err
  | readOnly
  | connector (msg : String)
deriving Repr, DecidableEq

/-- Model of the external SQL connector (spec section 6): the persisted
rows, the auto-increment counter, the row set the connector would return
for an ad-hoc built query, and fault-injection fields.  A `some msg`
fault makes the corresponding connector call fail with
`Err.connector msg`; `badScanRows` lists the ids of rows whose
`StructScan` fails (with message `scanMsg`). -/
structure Conn where
  rows : List Row
  nextId : Int
  adhocResult : List Row
  execFail : Option String
  lastIdFail : Option String
  prepareFail : Option String
  queryFail : Option String
  rowsAffectedFail : Option String
  badScanRows : List Int
  scanMsg : String
deriving Repr, DecidableEq

/-- A connector with no injected faults over a given row store; `adhoc`
is the row set returned for ad-hoc built queries. -/
def Conn.ok (rows : List Row) (nextId : Int) (adhoc : List Row) : Conn :=
  { rows := rows, nextId := nextId, adhocResult := adhoc,
    execFail := none, lastIdFail := none, prepareFail := none,
    queryFail := none, rowsAffectedFail := none,
    badScanRows := [], scanMsg := "" }

/-- Result handle of `db.Exec`: generated key and affected-row count. -/
structure ExecResult where
  lastId : Int
  affected : Int
deriving Repr, DecidableEq

/-- Connector semantics of executing a statement against the row store:
insert appends a fresh row under the auto-increment key, update rewrites
the non-key fields of the row addressed by the trailing primary-key
parameter, delete removes the addressed row.  Returns the updated store,
updated counter and the result handle. -/
def applyExec (q : Query) (params : List Value) (rows : List Row)
    (nextId : Int) : List Row × Int × ExecResult :=
  match q with
  | .insert _ _ =>
      (rows ++ [⟨nextId, params⟩], nextId + 1, ⟨nextId, 1⟩)
  | .update _ _ _ =>
      let pk := params.getLast?.getD 0
      let fv := params.dropLast
      (rows.map (fun r => if r.id = pk then ⟨r.id, fv⟩ else r), nextId,
        ⟨0, ((rows.filter (fun r => r.id = pk)).length : Int)⟩)
  | .delete _ _ =>
      let pk := (params.head?).getD 0
      (rows.filter (fun r => r.id ≠ pk), nextId,
        ⟨0, ((rows.filter (fun r => r.id = pk)).length : Int)⟩)
  | _ => (rows, nextId, ⟨0, 0⟩)

/-- Connector semantics of a row-returning query: a select-by-id returns
the first row with the given key (if any), a select-all returns the
whole store, and an ad-hoc built query returns the connector's
`adhocResult` (the predicate semantics of staged clauses lives in the
external connector, not in the core). -/
def queryRowsOf (c : Conn) (q : Query) (params : List Value) : List Row :=
  match q with
  | .selectById _ _ _ =>
      match (c.rows.find? (fun r => r.id = (params.head?).getD 0)) with
      | some r => [r]
      | none => []
  | .selectAll _ _ => c.rows
  | .built _ _ => c.adhocResult
  | _ => []

/-- The embedded `TableRecord` struct: persistence state plus the
embedded query builder's staged clauses and bound parameters
(`builder.Builder`). -/
structure TR where
  isNew : Bool
  isReadOnly : Bool
  clauses : List String
  params : List Value
deriving Repr, DecidableEq

/-- An entity satisfying `TableRecordInterface`: the embedded record,
the static table identity (table name, primary-key column, non-key
column names), the primary-key value and the non-key mapped field
values.  `GetPrimaryKeyValue` is the `id` projection, the field mapper's
output is `fieldNames`/`fields`. -/
structure Entity where
  tr : TR
  tableName : String
  pkName : String
  fieldNames : List String
  id : Int
  fields : List Value
deriving Repr, DecidableEq

/-- Go constructor NewTableRecord: fresh record state with an empty
builder. -/
def NewTableRecord (isNew isReadOnly : Bool) : TR :=
  { isNew := isNew, isReadOnly := isReadOnly, clauses := [], params := [] }

/-- Modelled from the spec: the Field Mapper's ordered column list for
an entity (`GetFieldMapper`, in `pkg/models/table_record/field_mapper`,
not under src/) — the primary key followed by the non-key columns. -/
def allCols (e : Entity) : List String :=
  e.pkName :: e.fieldNames

/-- Comma separator used by AllField. -/
def commaSep : String := ","

/-- Go AllField: joins the mapped column names for SELECT via
strings.Join with a comma. -/
def AllField (e : Entity) : String :=
  String.intercalate commaSep (allCols e)

/-- Modelled from the spec: `getFieldsValueNoPrimary` — the entity's
field values excluding the primary key, in field-mapper order
(`valuesExcludingPrimaryKey`); the function lives outside src/. -/
def getFieldsValueNoPrimary (e : Entity) : List Value :=
  e.fields

/-- Modelled from the spec: `genSaveQuery` —
`INSERT INTO <table> (<cols except PK>) VALUES (<placeholders>)`;
the generator lives in the query-builder package, not under src/. -/
def genSaveQuery (e : Entity) : Query :=
  .insert e.tableName e.fieldNames

/-- Modelled from the spec: `genUpdateQuery` —
`UPDATE <table> SET <col=?,...> WHERE <PK> = ?` with the primary-key
placeholder last; not under src/. -/
def genUpdateQuery (e : Entity) : Query :=
  .update e.tableName e.fieldNames e.pkName

/-- Modelled from the spec: `genDeleteQuery` —
`DELETE FROM <table> WHERE <PK> = ?`; not under src/. -/
def genDeleteQuery (e : Entity) : Query :=
  .delete e.tableName e.pkName

/-- Modelled from the spec: `Builder.BuildQuery` renders the staged
clauses over the table name; not under src/. -/
def BuildQuery (t : TR) (tableName : String) : Query :=
  .built tableName t.clauses

/-- Modelled from the spec: `ResetStmt` clears the builder's
accumulated predicates and parameters; not under src/. -/
def ResetStmt (t : TR) : TR :=
  { t with clauses := [], params := [] }

/-- Go setter SetIsNew on the record state. -/
def SetIsNew (t : TR) (n : Bool) : TR :=
  { t with isNew := n }

/-- Result of an operation returning an `int64` (generated key or
affected-row count) plus an error, in Go style: updated connector,
event trace, the integer (0 on the error paths that return 0), and the
error if any. -/
structure StepId where
  conn : Conn
  trace : List Event
  id : Int
  err : Option Err
deriving Repr, DecidableEq

/-- Result of an operation that (possibly) mutates the entity in place:
updated connector, event trace, the entity after the call, and the
error if any. -/
structure StepE where
  conn : Conn
  trace : List Event
  ent : Entity
  err : Option Err
deriving Repr, DecidableEq

/-- Result of a multi-row read: updated connector, event trace, the
entity whose builder state may have been reset, and either the
materialized entity list or the error. -/
structure StepQ where
  conn : Conn
  trace : List Event
  ent : Entity
  res : Except Err (List Entity)
deriving Repr

/-- Method executeSaveUpdateQuery: run `db.Exec(query, params...)`
then `res.LastInsertId()`; an error from either is returned with the
zero id. -/
def executeSaveUpdateQuery (c : Conn) (tr : List Event) (q : Query)
    (params : List Value) : StepId :=
  let tr := tr ++ [.exec q params]
  match c.execFail with
  | some m => ⟨c, tr, 0, some (.connector m)⟩
  | none =>
    let (rows, nid, res) := applyExec q params c.rows c.nextId
    let c := { c with rows := rows, nextId := nid }
    let tr := tr ++ [.lastInsertId]
    match c.lastIdFail with
    | some m => ⟨c, tr, 0, some (.connector m)⟩
    | none => ⟨c, tr, res.lastId, none⟩

/-- Go LoadFromRow: `r.StructScan(tri)` binds the row's columns into the
entity's fields; on success the record is marked not-new and the
connector reference is reattached (a no-op in the embedding, where the
connector is threaded explicitly). -/
def LoadFromRow (c : Conn) (tr : List Event) (row : Row) (e : Entity) :
    StepE :=
  let tr := tr ++ [.structScan]
  if row.id ∈ c.badScanRows then
    ⟨c, tr, e, some (.connector c.scanMsg)⟩
  else
    let e := { e with id := row.id, fields := row.fields }
    ⟨c, tr, { e with tr := SetIsNew e.tr false }, none⟩

/-- Go LoadByID: prepare and run
`SELECT <cols> FROM <table> WHERE <PK> = ?`; if a row comes back, scan
it into the entity; if none does, return success with the entity
untouched. -/
def LoadByID (c : Conn) (tr : List Event) (e : Entity) (id : Int) :
    StepE :=
  let q := Query.selectById e.tableName (allCols e) e.pkName
  let tr := tr ++ [.prepare q]
  match c.prepareFail with
  | some m => ⟨c, tr, e, some (.connector m)⟩
  | none =>
    let tr := tr ++ [.queryRows [id]]
    match c.queryFail with
    | some m => ⟨c, tr, e, some (.connector m)⟩
    | none =>
      match queryRowsOf c q [id] with
      | [] => ⟨c, tr, e, none⟩
      | r :: _ => LoadFromRow c tr r e

/-- Unexported Go `save`: insert the non-key values, take the generated
key, reload via `LoadByID`, then mark the record not-new. -/
def save (c : Conn) (tr : List Event) (e : Entity) : StepE :=
  let q := genSaveQuery e
  let fv := getFieldsValueNoPrimary e
  let s := executeSaveUpdateQuery c tr q fv
  match s.err with
  | some er => ⟨s.conn, s.trace, e, some er⟩
  | none =>
    let l := LoadByID s.conn s.trace e s.id
    match l.err with
    | some er => ⟨l.conn, l.trace, l.ent, some er⟩
    | none =>
      ⟨l.conn, l.trace, { l.ent with tr := SetIsNew l.ent.tr false }, none⟩

/-- Unexported Go `update`: run the update keyed by the current primary-key value
(appended last), then reload via `LoadByID` with that same key. -/
def update (c : Conn) (tr : List Event) (e : Entity) : StepE :=
  let q := genUpdateQuery e
  let fv := getFieldsValueNoPrimary e
  let s := executeSaveUpdateQuery c tr q (fv ++ [e.id])
  match s.err with
  | some er => ⟨s.conn, s.trace, e, some er⟩
  | none =>
    LoadByID s.conn s.trace e e.id

/-- Go Save: reject read-only records locally, then dispatch to `save`
(new) or `update` (persisted). -/
def Save (c : Conn) (tr : List Event) (e : Entity) : StepE :=
  if e.tr.isReadOnly then ⟨c, tr, e, some .readOnly⟩
  else if e.tr.isNew then save c tr e
  else update c tr e

/-- Go Delete: prepare and execute the delete keyed by the primary key,
then read the affected-row count.  Faithful to the source: when
`res.RowsAffected()` itself errors, the Go code runs `return 0, nil`,
discarding the error. -/
def Delete (c : Conn) (tr : List Event) (e : Entity) : StepId :=
  let q := genDeleteQuery e
  let tr := tr ++ [.prepare q]
  match c.prepareFail with
  | some m => ⟨c, tr, 0, some (.connector m)⟩
  | none =>
    let tr := tr ++ [.exec q [e.id]]
    match c.execFail with
    | some m => ⟨c, tr, 0, some (.connector m)⟩
    | none =>
      let (rows, nid, res) := applyExec q [e.id] c.rows c.nextId
      let c := { c with rows := rows, nextId := nid }
      let tr := tr ++ [.rowsAffected]
      match c.rowsAffectedFail with
      | some _ => ⟨c, tr, 0, none⟩
      | none => ⟨c, tr, res.affected, none⟩

/-- The scan loop shared by `All` and `ExecQuery`: one fresh entity per
row via the constructor (modelled by the prototype entity `proto`); the
first scan failure aborts with that error and no list. -/
def loadRows (c : Conn) (tr : List Event) (proto : Entity) :
    List Row → List Event × Except Err (List Entity)
  | [] => (tr, .ok [])
  | r :: rs =>
    let l := LoadFromRow c tr r proto
    match l.err with
    | some er => (l.trace, .error er)
    | none =>
      match loadRows c l.trace proto rs with
      | (tr2, .error er) => (tr2, .error er)
      | (tr2, .ok tis) => (tr2, .ok (l.ent :: tis))

/-- Go All: `SELECT <cols> FROM <table>` over the constructor's table,
materializing one entity per returned row. -/
def All (c : Conn) (tr : List Event) (proto : Entity) : StepQ :=
  let q := Query.selectAll proto.tableName (allCols proto)
  let tr := tr ++ [.queryRows []]
  match c.queryFail with
  | some m => ⟨c, tr, proto, .error (.connector m)⟩
  | none =>
    let (tr2, res) := loadRows c tr proto (queryRowsOf c q [])
    ⟨c, tr2, proto, res⟩

/-- Method PrepareStmt: render the builder's staged query for
the table and prepare it on the connector. -/
def PrepareStmt (c : Conn) (tr : List Event) (t : TR)
    (tableName : String) : List Event × Except Err Query :=
  let q := BuildQuery t tableName
  let tr := tr ++ [.prepare q]
  match c.prepareFail with
  | some m => (tr, .error (.connector m))
  | none => (tr, .ok q)

/-- Go ExecQuery: prepare the staged ad-hoc query, run it with the
builder's bound parameters, materialize the rows, and reset the builder
state — the reset happens only on the all-success path, as in the
source. -/
def ExecQuery (c : Conn) (tr : List Event) (e : Entity) (proto : Entity) :
    StepQ :=
  match PrepareStmt c tr e.tr e.tableName with
  | (tr1, .error er) => ⟨c, tr1, e, .error er⟩
  | (tr1, .ok q) =>
    let tr2 := tr1 ++ [.queryRows e.tr.params]
    match c.queryFail with
    | some m => ⟨c, tr2, e, .error (.connector m)⟩
    | none =>
      match loadRows c tr2 proto (queryRowsOf c q e.tr.params) with
      | (tr3, .error er) => ⟨c, tr3, e, .error er⟩
      | (tr3, .ok tis) =>
        ⟨c, tr3, { e with tr := ResetStmt e.tr }, .ok tis⟩

/-- Connector failure message used in concrete instances: the
`RowsAffected` call fails. -/
def rowsAffectedFailureMsg : String := "rows-affected failure"

/-- Connector failure message used in concrete instances: `Preparex`
fails. -/
def prepareFailureMsg : String := "prepare failure"

/-- Connector failure message used in concrete instances: the reload
after an insert fails. -/
def reloadFailureMsg : String := "reload failure"

/-- Connector failure message used in concrete instances: `StructScan`
fails. -/
def scanFailureMsg : String := "scan failure"

/-- When the select-by-id result is nonempty, its head is the row whose
id equals the queried key. -/
lemma selectById_head_id (c : Conn) (t pk : String) (cols : List String)
    (params : List Value) (r : Row) (rest : List Row)
    (h : queryRowsOf c (.selectById t cols pk) params = r :: rest) :
    r.id = (params.head?).getD 0 := by
  unfold queryRowsOf at h
  cases hf : c.rows.find? (fun x => x.id = (params.head?).getD 0) with
  | none => rw [hf] at h; simp at h
  | some a =>
    rw [hf] at h
    simp at h
    obtain ⟨rfl, -⟩ := h
    have := List.find?_some hf
    simpa using this

/-- LoadByID never changes the connector state. -/
lemma LoadByID_conn_eq (c : Conn) (tr : List Event) (e : Entity) (id : Int) :
    (LoadByID c tr e id).conn = c := by
  cases hp : c.prepareFail with
  | some m => simp [LoadByID, hp]
  | none =>
    cases hq : c.queryFail with
    | some m => simp [LoadByID, hp, hq]
    | none =>
      cases hqr : queryRowsOf c (.selectById e.tableName (allCols e) e.pkName) [id] with
      | nil => simp [LoadByID, hp, hq, hqr]
      | cons r rest =>
        simp only [LoadByID, LoadFromRow, hp, hq, hqr]
        split <;> rfl

/-- When LoadByID fails, the entity is returned unchanged. -/
lemma LoadByID_error_ent (c : Conn) (tr : List Event) (e : Entity) (id : Int)
    (er : Err) (h : (LoadByID c tr e id).err = some er) :
    (LoadByID c tr e id).ent = e := by
  cases hp : c.prepareFail with
  | some m => simp [LoadByID, hp]
  | none =>
    cases hq : c.queryFail with
    | some m => simp [LoadByID, hp, hq]
    | none =>
      cases hqr : queryRowsOf c (.selectById e.tableName (allCols e) e.pkName) [id] with
      | nil => simp [LoadByID, hp, hq, hqr]
      | cons r rest =>
        simp only [LoadByID, LoadFromRow, hp, hq, hqr] at h ⊢
        split at h
        · split
          · rfl
          · simp_all
        · simp at h

/-- On a connector whose exec and last-insert-id calls succeed, the
insert round of executeSaveUpdateQuery appends the fresh row, bumps the
auto-increment counter and returns the generated key. -/
lemma executeSaveUpdateQuery_insert_ok (c : Conn) (tr : List Event) (e : Entity)
    (he : c.execFail = none) (hl : c.lastIdFail = none) :
    executeSaveUpdateQuery c tr (genSaveQuery e) (getFieldsValueNoPrimary e) =
      ⟨{ c with rows := c.rows ++ [⟨c.nextId, getFieldsValueNoPrimary e⟩],
                nextId := c.nextId + 1 },
        (tr ++ [.exec (genSaveQuery e) (getFieldsValueNoPrimary e)]) ++ [.lastInsertId],
        c.nextId, none⟩ := by
  simp [executeSaveUpdateQuery, he, hl, applyExec, genSaveQuery]

/-- A successful LoadByID emits exactly a prepare and a query event,
followed by a scan event when a row came back. -/
lemma LoadByID_trace (c : Conn) (tr : List Event) (e : Entity) (id : Int)
    (hok : (LoadByID c tr e id).err = none) :
    ∃ scanTail, ((scanTail = [] ∨ scanTail = [Event.structScan]) ∧
      (LoadByID c tr e id).trace =
        tr ++ [Event.prepare (Query.selectById e.tableName (allCols e) e.pkName),
               Event.queryRows [id]] ++ scanTail) := by
  cases hp : c.prepareFail with
  | some m => simp [LoadByID, hp] at hok
  | none =>
  cases hq : c.queryFail with
  | some m => simp [LoadByID, hp, hq] at hok
  | none =>
  cases hqr : queryRowsOf c (.selectById e.tableName (allCols e) e.pkName) [id] with
  | nil =>
    refine ⟨[], Or.inl rfl, ?_⟩
    simp [LoadByID, hp, hq, hqr]
  | cons r rest =>
    by_cases hb : r.id ∈ c.badScanRows
    · simp [LoadByID, LoadFromRow, hp, hq, hqr, hb] at hok
    · refine ⟨[Event.structScan], Or.inr rfl, ?_⟩
      simp [LoadByID, LoadFromRow, hp, hq, hqr, hb]

/-- If the scan of some row in the batch fails, the whole scan loop
returns that scan error. -/
lemma loadRows_scan_failure (c : Conn) (proto : Entity) :
    ∀ (rows : List Row) (tr : List Event), (∃ r ∈ rows, r.id ∈ c.badScanRows) →
      (loadRows c tr proto rows).2 = .error (.connector c.scanMsg)
  | [], tr, h => by simp at h
  | r :: rs, tr, h => by
      unfold loadRows LoadFromRow
      by_cases hb : r.id ∈ c.badScanRows
      · simp [hb]
      · have h' : ∃ x ∈ rs, x.id ∈ c.badScanRows := by
          rcases h with ⟨x, hx, hbad⟩
          rcases List.mem_cons.mp hx with hx1 | hx2
          · exact absurd (hx1 ▸ hbad) hb
          · exact ⟨x, hx2, hbad⟩
        have ih := loadRows_scan_failure c proto rs (tr ++ [.structScan]) h'
        rcases hlr : loadRows c (tr ++ [.structScan]) proto rs with ⟨tr2, res⟩
        rw [hlr] at ih
        cases res with
        | error er => simp at ih; simp [hb, hlr, ih]
        | ok tis => simp at ih

/-- Claim C1: for every entity with isNew and not read-only, a
successful Save executes the insert with the non-primary-key field
values, obtains the generated primary key from the connector, performs
LoadByID with that generated key, and then sets isNew to false, in that
order (witnessed by the connector event trace, which lists the insert
exec, the last-insert-id fetch, and then the reload's prepare/query
events for the generated key `c.nextId`). -/
theorem Save_new_insert_reload_order (c : Conn) (tr : List Event) (e : Entity)
    (hro : e.tr.isReadOnly = false) (hnew : e.tr.isNew = true)
    (hok : (Save c tr e).err = none) :
    ∃ scanTail, ((scanTail = [] ∨ scanTail = [Event.structScan]) ∧
      (Save c tr e).trace =
        tr ++ [Event.exec (genSaveQuery e) (getFieldsValueNoPrimary e),
               Event.lastInsertId,
               Event.prepare (Query.selectById e.tableName (allCols e) e.pkName),
               Event.queryRows [c.nextId]] ++ scanTail ∧
      (Save c tr e).ent.tr.isNew = false) := by
  cases he : c.execFail with
  | some m => simp [Save, save, executeSaveUpdateQuery, hro, hnew, he] at hok
  | none =>
  cases hl : c.lastIdFail with
  | some m =>
    simp [Save, save, executeSaveUpdateQuery, applyExec, genSaveQuery, hro, hnew, he, hl] at hok
  | none =>
  have hs := executeSaveUpdateQuery_insert_ok c tr e he hl
  cases hLerr : (LoadByID
      { c with rows := c.rows ++ [⟨c.nextId, getFieldsValueNoPrimary e⟩],
               nextId := c.nextId + 1 }
      (tr ++ [.exec (genSaveQuery e) (getFieldsValueNoPrimary e), .lastInsertId])
      e c.nextId).err with
  | some er => simp [Save, save, hro, hnew, hs, hLerr] at hok
  | none =>
    obtain ⟨st, hst, htr⟩ := LoadByID_trace _ _ _ _ hLerr
    refine ⟨st, hst, ?_, ?_⟩ <;>
      simp [Save, save, hro, hnew, hs, hLerr, htr, SetIsNew]

/-- Witness for claim C1 at a concrete new entity over an empty store. -/
theorem Save_new_insert_reload_order_witness :
    (⟨NewTableRecord true false, "users", "id", ["name"], 0, [7]⟩ : Entity).tr.isReadOnly = false ∧
    (⟨NewTableRecord true false, "users", "id", ["name"], 0, [7]⟩ : Entity).tr.isNew = true ∧
    (Save (Conn.ok [] 1 []) [] ⟨NewTableRecord true false, "users", "id", ["name"], 0, [7]⟩).err = none ∧
    (∃ scanTail, ((scanTail = [] ∨ scanTail = [Event.structScan]) ∧
      (Save (Conn.ok [] 1 []) [] ⟨NewTableRecord true false, "users", "id", ["name"], 0, [7]⟩).trace =
        [] ++ [Event.exec (genSaveQuery ⟨NewTableRecord true false, "users", "id", ["name"], 0, [7]⟩)
                 (getFieldsValueNoPrimary ⟨NewTableRecord true false, "users", "id", ["name"], 0, [7]⟩),
               Event.lastInsertId,
               Event.prepare (Query.selectById "users"
                 (allCols ⟨NewTableRecord true false, "users", "id", ["name"], 0, [7]⟩) "id"),
               Event.queryRows [(Conn.ok [] 1 []).nextId]] ++ scanTail ∧
      (Save (Conn.ok [] 1 []) [] ⟨NewTableRecord true false, "users", "id", ["name"], 0, [7]⟩).ent.tr.isNew = false)) :=
  ⟨rfl, rfl, rfl, Save_new_insert_reload_order (Conn.ok [] 1 []) [] _ rfl rfl rfl⟩

/-- Claim C2: Save on a read-only entity fails with the read-only
violation error, issues no statement to the connector (the event trace
is unchanged) and writes or modifies no row (the connector state is
unchanged). -/
theorem Save_readOnly_rejects (c : Conn) (tr : List Event) (e : Entity)
    (h : e.tr.isReadOnly = true) :
    Save c tr e = ⟨c, tr, e, some .readOnly⟩ := by
  simp [Save, h]

/-- Witness for claim C2 at a concrete read-only entity. -/
theorem Save_readOnly_rejects_witness :
    (⟨NewTableRecord false true, "users", "id", ["name"], 1, [5]⟩ : Entity).tr.isReadOnly = true ∧
    Save (Conn.ok [⟨1,[5]⟩] 2 []) [] ⟨NewTableRecord false true, "users", "id", ["name"], 1, [5]⟩ =
      ⟨Conn.ok [⟨1,[5]⟩] 2 [], [], ⟨NewTableRecord false true, "users", "id", ["name"], 1, [5]⟩, some .readOnly⟩ :=
  ⟨rfl, Save_readOnly_rejects (Conn.ok [⟨1,[5]⟩] 2 []) [] _ rfl⟩

/-- Claim C3 (code bug): Delete is supposed to propagate every connector
error unchanged, but when the RowsAffected call fails the source runs
`return 0, nil`, so the connector error is discarded: at this concrete
input the delete statement ran (the row is gone) and Delete still
reports success with a zero count instead of the connector error. -/
theorem Delete_swallows_rowsAffected_error :
    (Delete { Conn.ok [⟨1,[5]⟩] 2 [] with rowsAffectedFail := some rowsAffectedFailureMsg } []
        ⟨NewTableRecord false false, "users", "id", ["name"], 1, [5]⟩).err = none ∧
    (Delete { Conn.ok [⟨1,[5]⟩] 2 [] with rowsAffectedFail := some rowsAffectedFailureMsg } []
        ⟨NewTableRecord false false, "users", "id", ["name"], 1, [5]⟩).id = 0 ∧
    (Delete { Conn.ok [⟨1,[5]⟩] 2 [] with rowsAffectedFail := some rowsAffectedFailureMsg } []
        ⟨NewTableRecord false false, "users", "id", ["name"], 1, [5]⟩).conn.rows = [] := by
  decide

/-- Claim C4: when the LoadByID query returns zero rows (no stored row
has the requested id) and the connector itself does not fail, the entity
is left entirely unchanged, no error is raised, and the store is
untouched. -/
theorem LoadByID_miss_noop (c : Conn) (tr : List Event) (e : Entity) (id : Int)
    (hp : c.prepareFail = none) (hq : c.queryFail = none)
    (hm : ∀ r ∈ c.rows, r.id ≠ id) :
    (LoadByID c tr e id).ent = e ∧ (LoadByID c tr e id).err = none ∧
      (LoadByID c tr e id).conn = c := by
  have hfind : c.rows.find? (fun r => r.id = id) = none := by
    rw [List.find?_eq_none]
    intro r hr
    simpa using hm r hr
  simp [LoadByID, hp, hq, queryRowsOf, hfind]

/-- Witness for claim C4: loading id 9 from a store holding only id 1. -/
theorem LoadByID_miss_noop_witness :
    (Conn.ok [⟨1,[5]⟩] 2 []).prepareFail = none ∧
    (Conn.ok [⟨1,[5]⟩] 2 []).queryFail = none ∧
    (∀ r ∈ (Conn.ok [⟨1,[5]⟩] 2 []).rows, r.id ≠ 9) ∧
    ((LoadByID (Conn.ok [⟨1,[5]⟩] 2 []) [] ⟨NewTableRecord true false, "users", "id", ["name"], 0, [7]⟩ 9).ent =
        ⟨NewTableRecord true false, "users", "id", ["name"], 0, [7]⟩ ∧
      (LoadByID (Conn.ok [⟨1,[5]⟩] 2 []) [] ⟨NewTableRecord true false, "users", "id", ["name"], 0, [7]⟩ 9).err = none ∧
      (LoadByID (Conn.ok [⟨1,[5]⟩] 2 []) [] ⟨NewTableRecord true false, "users", "id", ["name"], 0, [7]⟩ 9).conn =
        Conn.ok [⟨1,[5]⟩] 2 []) :=
  ⟨rfl, rfl, by decide,
   LoadByID_miss_noop (Conn.ok [⟨1,[5]⟩] 2 []) [] _ 9 rfl rfl (by decide)⟩

/-- Counterexample to claim C5: Delete performs no read-only check — on
a read-only entity whose row exists, Delete succeeds (no error), removes
the storage row, and reports one affected row, contradicting the claim
that every mutating operation is blocked on read-only entities. -/
theorem Delete_readOnly_unchecked_cex :
    (Delete (Conn.ok [⟨1,[5]⟩] 2 []) [] ⟨NewTableRecord false true, "users", "id", ["name"], 1, [5]⟩).err = none ∧
    (Delete (Conn.ok [⟨1,[5]⟩] 2 []) [] ⟨NewTableRecord false true, "users", "id", ["name"], 1, [5]⟩).conn.rows = [] ∧
    (Delete (Conn.ok [⟨1,[5]⟩] 2 []) [] ⟨NewTableRecord false true, "users", "id", ["name"], 1, [5]⟩).id = 1 := by
  decide

/-- Claim C5 as amended: only Save is blocked by the read-only flag;
Delete performs no read-only check, so on a read-only entity with a
healthy connector it executes the delete, removes every row with the
entity's primary key, and returns the affected-row count. -/
theorem Delete_ignores_readOnly (c : Conn) (tr : List Event) (e : Entity)
    (_hro : e.tr.isReadOnly = true)
    (hp : c.prepareFail = none) (he : c.execFail = none)
    (hr : c.rowsAffectedFail = none) :
    (Delete c tr e).err = none ∧
    (Delete c tr e).conn.rows = c.rows.filter (fun r => r.id ≠ e.id) ∧
    (Delete c tr e).id = ((c.rows.filter (fun r => r.id = e.id)).length : Int) := by
  simp [Delete, hp, he, hr, applyExec, genDeleteQuery]

/-- Witness for the amended claim C5 at a concrete read-only entity. -/
theorem Delete_ignores_readOnly_witness :
    (⟨NewTableRecord false true, "users", "id", ["name"], 1, [5]⟩ : Entity).tr.isReadOnly = true ∧
    (Conn.ok [⟨1,[5]⟩, ⟨2,[6]⟩] 3 []).prepareFail = none ∧
    (Conn.ok [⟨1,[5]⟩, ⟨2,[6]⟩] 3 []).execFail = none ∧
    (Conn.ok [⟨1,[5]⟩, ⟨2,[6]⟩] 3 []).rowsAffectedFail = none ∧
    ((Delete (Conn.ok [⟨1,[5]⟩, ⟨2,[6]⟩] 3 []) [] ⟨NewTableRecord false true, "users", "id", ["name"], 1, [5]⟩).err = none ∧
      (Delete (Conn.ok [⟨1,[5]⟩, ⟨2,[6]⟩] 3 []) [] ⟨NewTableRecord false true, "users", "id", ["name"], 1, [5]⟩).conn.rows =
        (Conn.ok [⟨1,[5]⟩, ⟨2,[6]⟩] 3 []).rows.filter (fun r => r.id ≠ (⟨NewTableRecord false true, "users", "id", ["name"], 1, [5]⟩ : Entity).id) ∧
      (Delete (Conn.ok [⟨1,[5]⟩, ⟨2,[6]⟩] 3 []) [] ⟨NewTableRecord false true, "users", "id", ["name"], 1, [5]⟩).id =
        (((Conn.ok [⟨1,[5]⟩, ⟨2,[6]⟩] 3 []).rows.filter (fun r => r.id = (⟨NewTableRecord false true, "users", "id", ["name"], 1, [5]⟩ : Entity).id)).length : Int)) :=
  ⟨rfl, rfl, rfl, rfl,
   Delete_ignores_readOnly (Conn.ok [⟨1,[5]⟩, ⟨2,[6]⟩] 3 []) [] _ rfl rfl rfl rfl⟩

/-- Counterexample to claim C6: when ExecQuery returns an error (here a
prepare failure), the builder's staged clause and parameter state is NOT
cleared — it stays on the entity, contradicting the claim that the state
is cleared after every execution whether it returns a list or an
error. -/
theorem ExecQuery_error_keeps_builder_state :
    (ExecQuery { Conn.ok [] 1 [] with prepareFail := some prepareFailureMsg } []
        ⟨⟨false, false, ["name = ?"], [7]⟩, "users", "id", ["name"], 1, [5]⟩
        ⟨NewTableRecord true false, "users", "id", ["name"], 0, []⟩).ent.tr.clauses = ["name = ?"] ∧
    (ExecQuery { Conn.ok [] 1 [] with prepareFail := some prepareFailureMsg } []
        ⟨⟨false, false, ["name = ?"], [7]⟩, "users", "id", ["name"], 1, [5]⟩
        ⟨NewTableRecord true false, "users", "id", ["name"], 0, []⟩).ent.tr.params = [7] ∧
    (ExecQuery { Conn.ok [] 1 [] with prepareFail := some prepareFailureMsg } []
        ⟨⟨false, false, ["name = ?"], [7]⟩, "users", "id", ["name"], 1, [5]⟩
        ⟨NewTableRecord true false, "users", "id", ["name"], 0, []⟩).res =
      .error (.connector prepareFailureMsg) :=
  ⟨rfl, rfl, rfl⟩

/-- Claim C6 as amended: the builder's accumulated clause and parameter
state on the entity is cleared after every SUCCESSFUL ExecQuery; on an
error return the staged state remains on the entity. -/
theorem ExecQuery_success_resets_builder (c : Conn) (tr : List Event)
    (e proto : Entity) (h : (ExecQuery c tr e proto).res.isOk = true) :
    (ExecQuery c tr e proto).ent.tr.clauses = [] ∧
    (ExecQuery c tr e proto).ent.tr.params = [] := by
  cases hp : c.prepareFail with
  | some m => simp [ExecQuery, PrepareStmt, hp, Except.isOk, Except.toBool] at h
  | none =>
    cases hq : c.queryFail with
    | some m => simp [ExecQuery, PrepareStmt, hp, hq, Except.isOk, Except.toBool] at h
    | none =>
      rcases hlr : loadRows c (tr ++ [.prepare (BuildQuery e.tr e.tableName),
          .queryRows e.tr.params]) proto
          (queryRowsOf c (BuildQuery e.tr e.tableName) e.tr.params) with ⟨tr3, res⟩
      cases res with
      | error er =>
        simp [ExecQuery, PrepareStmt, hp, hq, hlr, Except.isOk, Except.toBool] at h
      | ok tis =>
        simp [ExecQuery, PrepareStmt, hp, hq, hlr, ResetStmt]

/-- Witness for the amended claim C6 at a concrete staged query. -/
theorem ExecQuery_success_resets_builder_witness :
    (ExecQuery (Conn.ok [] 1 []) []
        ⟨⟨false, false, ["name = ?"], [7]⟩, "users", "id", ["name"], 1, [5]⟩
        ⟨NewTableRecord true false, "users", "id", ["name"], 0, []⟩).res.isOk = true ∧
    ((ExecQuery (Conn.ok [] 1 []) []
        ⟨⟨false, false, ["name = ?"], [7]⟩, "users", "id", ["name"], 1, [5]⟩
        ⟨NewTableRecord true false, "users", "id", ["name"], 0, []⟩).ent.tr.clauses = [] ∧
      (ExecQuery (Conn.ok [] 1 []) []
        ⟨⟨false, false, ["name = ?"], [7]⟩, "users", "id", ["name"], 1, [5]⟩
        ⟨NewTableRecord true false, "users", "id", ["name"], 0, []⟩).ent.tr.params = []) :=
  ⟨rfl, ExecQuery_success_resets_builder (Conn.ok [] 1 []) [] _ _ rfl⟩

/-- Claim C7 (round trip): for an entity constructed with isNew and
valid field values, over a healthy connector whose next auto-increment
key is fresh, Save succeeds and a subsequent LoadByID with the entity's
primary-key value yields an entity whose mapped fields equal, field for
field, the values set before Save. -/
theorem Save_LoadByID_roundtrip (c : Conn) (tr : List Event) (e : Entity)
    (hro : e.tr.isReadOnly = false) (hnew : e.tr.isNew = true)
    (he : c.execFail = none) (hl : c.lastIdFail = none)
    (hp : c.prepareFail = none) (hq : c.queryFail = none)
    (hbad : c.badScanRows = [])
    (hfresh : ∀ r ∈ c.rows, r.id ≠ c.nextId) :
    (Save c tr e).err = none ∧
    (LoadByID (Save c tr e).conn (Save c tr e).trace (Save c tr e).ent
        (Save c tr e).ent.id).err = none ∧
    (LoadByID (Save c tr e).conn (Save c tr e).trace (Save c tr e).ent
        (Save c tr e).ent.id).ent.fields = e.fields := by
  have hs := executeSaveUpdateQuery_insert_ok c tr e he hl
  simp only [getFieldsValueNoPrimary] at hs
  have hnone : List.find? (fun r : Row => r.id = c.nextId) c.rows = none :=
    List.find?_eq_none.mpr (fun r hr => by simpa using hfresh r hr)
  have hfind : List.find? (fun r : Row => r.id = c.nextId)
      (c.rows ++ [({ id := c.nextId, fields := e.fields } : Row)]) =
      some ({ id := c.nextId, fields := e.fields } : Row) := by
    rw [List.find?_append, hnone]; simp
  refine ⟨?_, ?_, ?_⟩ <;>
    simp [Save, save, hro, hnew, hs, LoadByID, LoadFromRow, queryRowsOf, hp, hq, hbad,
      hfind, SetIsNew, getFieldsValueNoPrimary, allCols]

/-- Witness for claim C7 at a concrete new entity over a one-row store. -/
theorem Save_LoadByID_roundtrip_witness :
    (⟨NewTableRecord true false, "users", "id", ["name"], 0, [7]⟩ : Entity).tr.isReadOnly = false ∧
    (⟨NewTableRecord true false, "users", "id", ["name"], 0, [7]⟩ : Entity).tr.isNew = true ∧
    (∀ r ∈ (Conn.ok [⟨1,[5]⟩] 2 []).rows, r.id ≠ (Conn.ok [⟨1,[5]⟩] 2 []).nextId) ∧
    ((Save (Conn.ok [⟨1,[5]⟩] 2 []) [] ⟨NewTableRecord true false, "users", "id", ["name"], 0, [7]⟩).err = none ∧
      (LoadByID (Save (Conn.ok [⟨1,[5]⟩] 2 []) [] ⟨NewTableRecord true false, "users", "id", ["name"], 0, [7]⟩).conn
          (Save (Conn.ok [⟨1,[5]⟩] 2 []) [] ⟨NewTableRecord true false, "users", "id", ["name"], 0, [7]⟩).trace
          (Save (Conn.ok [⟨1,[5]⟩] 2 []) [] ⟨NewTableRecord true false, "users", "id", ["name"], 0, [7]⟩).ent
          (Save (Conn.ok [⟨1,[5]⟩] 2 []) [] ⟨NewTableRecord true false, "users", "id", ["name"], 0, [7]⟩).ent.id).err = none ∧
      (LoadByID (Save (Conn.ok [⟨1,[5]⟩] 2 []) [] ⟨NewTableRecord true false, "users", "id", ["name"], 0, [7]⟩).conn
          (Save (Conn.ok [⟨1,[5]⟩] 2 []) [] ⟨NewTableRecord true false, "users", "id", ["name"], 0, [7]⟩).trace
          (Save (Conn.ok [⟨1,[5]⟩] 2 []) [] ⟨NewTableRecord true false, "users", "id", ["name"], 0, [7]⟩).ent
          (Save (Conn.ok [⟨1,[5]⟩] 2 []) [] ⟨NewTableRecord true false, "users", "id", ["name"], 0, [7]⟩).ent.id).ent.fields =
        (⟨NewTableRecord true false, "users", "id", ["name"], 0, [7]⟩ : Entity).fields) :=
  ⟨rfl, rfl, by decide,
   Save_LoadByID_roundtrip (Conn.ok [⟨1,[5]⟩] 2 []) [] _ rfl rfl rfl rfl rfl rfl rfl (by decide)⟩

/-- Claim C8: Save on an already-persisted entity (isNew false) never
changes the entity's primary-key value — whatever the connector does
(success or any failure), the primary-key value after Save equals the
value before it. -/
theorem Save_update_preserves_pk (c : Conn) (tr : List Event) (e : Entity)
    (hnew : e.tr.isNew = false) :
    (Save c tr e).ent.id = e.id := by
  unfold Save update LoadByID LoadFromRow
  split
  · rfl
  · simp [hnew]
    split
    · rfl
    · split
      · rfl
      · split
        · rfl
        · split
          · rfl
          · rename_i r rest hfind
            have hr : r.id = e.id := by
              simpa using selectById_head_id _ _ _ _ _ _ _ hfind
            split
            · rfl
            · simp [hr]

/-- Witness for claim C8 at a concrete persisted entity. -/
theorem Save_update_preserves_pk_witness :
    (⟨NewTableRecord false false, "users", "id", ["name"], 1, [9]⟩ : Entity).tr.isNew = false ∧
    (Save (Conn.ok [⟨1,[5]⟩] 2 []) [] ⟨NewTableRecord false false, "users", "id", ["name"], 1, [9]⟩).ent.id =
      (⟨NewTableRecord false false, "users", "id", ["name"], 1, [9]⟩ : Entity).id :=
  ⟨rfl, Save_update_preserves_pk (Conn.ok [⟨1,[5]⟩] 2 []) [] _ rfl⟩

/-- Claim C9: in both multi-row read operations, All and ExecQuery, if
the scan of any returned row fails, the whole operation returns the scan
error — the result is the error value, never a partial collection of
entities. -/
theorem multiRow_scan_failure_aborts (c : Conn) (tr trE : List Event)
    (proto e : Entity)
    (hq : c.queryFail = none) (hp : c.prepareFail = none)
    (hA : ∃ r ∈ c.rows, r.id ∈ c.badScanRows)
    (hE : ∃ r ∈ c.adhocResult, r.id ∈ c.badScanRows) :
    (All c tr proto).res = .error (.connector c.scanMsg) ∧
    (ExecQuery c trE e proto).res = .error (.connector c.scanMsg) := by
  constructor
  · have hfail := loadRows_scan_failure c proto c.rows (tr ++ [.queryRows []]) hA
    simp only [All, hq, queryRowsOf]
    simpa using hfail
  · have hfail := loadRows_scan_failure c proto c.adhocResult
      ((trE ++ [.prepare (.built e.tableName e.tr.clauses)]) ++ [.queryRows e.tr.params]) hE
    simp only [ExecQuery, PrepareStmt, hp, hq, BuildQuery, queryRowsOf]
    rcases hlr : loadRows c
      ((trE ++ [.prepare (.built e.tableName e.tr.clauses)]) ++ [.queryRows e.tr.params])
      proto c.adhocResult with ⟨tr3, res⟩
    rw [hlr] at hfail ⊢
    cases res with
    | error er => simpa using hfail
    | ok tis => simp at hfail

/-- Witness for claim C9: a store and an ad-hoc result each containing a
row whose scan fails. -/
theorem multiRow_scan_failure_aborts_witness :
    ({ Conn.ok [⟨1,[5]⟩] 2 [⟨2,[6]⟩] with badScanRows := [1, 2], scanMsg := scanFailureMsg } : Conn).queryFail = none ∧
    ({ Conn.ok [⟨1,[5]⟩] 2 [⟨2,[6]⟩] with badScanRows := [1, 2], scanMsg := scanFailureMsg } : Conn).prepareFail = none ∧
    (∃ r ∈ ({ Conn.ok [⟨1,[5]⟩] 2 [⟨2,[6]⟩] with badScanRows := [1, 2], scanMsg := scanFailureMsg } : Conn).rows,
      r.id ∈ ({ Conn.ok [⟨1,[5]⟩] 2 [⟨2,[6]⟩] with badScanRows := [1, 2], scanMsg := scanFailureMsg } : Conn).badScanRows) ∧
    (∃ r ∈ ({ Conn.ok [⟨1,[5]⟩] 2 [⟨2,[6]⟩] with badScanRows := [1, 2], scanMsg := scanFailureMsg } : Conn).adhocResult,
      r.id ∈ ({ Conn.ok [⟨1,[5]⟩] 2 [⟨2,[6]⟩] with badScanRows := [1, 2], scanMsg := scanFailureMsg } : Conn).badScanRows) ∧
    ((All { Conn.ok [⟨1,[5]⟩] 2 [⟨2,[6]⟩] with badScanRows := [1, 2], scanMsg := scanFailureMsg } []
        ⟨NewTableRecord true false, "users", "id", ["name"], 0, []⟩).res =
      .error (.connector ({ Conn.ok [⟨1,[5]⟩] 2 [⟨2,[6]⟩] with badScanRows := [1, 2], scanMsg := scanFailureMsg } : Conn).scanMsg) ∧
    (ExecQuery { Conn.ok [⟨1,[5]⟩] 2 [⟨2,[6]⟩] with badScanRows := [1, 2], scanMsg := scanFailureMsg } []
        ⟨⟨false, false, ["name = ?"], [7]⟩, "users", "id", ["name"], 1, [5]⟩
        ⟨NewTableRecord true false, "users", "id", ["name"], 0, []⟩).res =
      .error (.connector ({ Conn.ok [⟨1,[5]⟩] 2 [⟨2,[6]⟩] with badScanRows := [1, 2], scanMsg := scanFailureMsg } : Conn).scanMsg)) :=
  ⟨rfl, rfl, by decide, by decide,
   multiRow_scan_failure_aborts _ [] [] _ _ rfl rfl (by decide) (by decide)⟩

/-- Claim C10: for a new entity, when the insert round succeeds but the
follow-up LoadByID reload fails, Save returns the reload error, the
entity's isNew flag remains true, and the inserted row is already in
storage. -/
theorem Save_reload_failure_keeps_isNew (c : Conn) (tr : List Event) (e : Entity) (er : Err)
    (hro : e.tr.isReadOnly = false) (hnew : e.tr.isNew = true)
    (he : c.execFail = none) (hl : c.lastIdFail = none)
    (hfail : (LoadByID
        { c with rows := c.rows ++ [⟨c.nextId, getFieldsValueNoPrimary e⟩],
                 nextId := c.nextId + 1 }
        (tr ++ [.exec (genSaveQuery e) (getFieldsValueNoPrimary e), .lastInsertId])
        e c.nextId).err = some er) :
    (Save c tr e).err = some er ∧
    (Save c tr e).ent.tr.isNew = true ∧
    (Save c tr e).conn.rows = c.rows ++ [⟨c.nextId, getFieldsValueNoPrimary e⟩] := by
  have hent := LoadByID_error_ent _ _ _ _ _ hfail
  have hconn := LoadByID_conn_eq
    { c with rows := c.rows ++ [⟨c.nextId, getFieldsValueNoPrimary e⟩], nextId := c.nextId + 1 }
    (tr ++ [.exec (genSaveQuery e) (getFieldsValueNoPrimary e), .lastInsertId])
    e c.nextId
  refine ⟨?_, ?_, ?_⟩ <;>
    simp [Save, save, hro, hnew, executeSaveUpdateQuery_insert_ok c tr e he hl,
      hfail, hent, hconn]

/-- Witness for claim C10: the reload fails because the prepare of the
select fails, after a successful insert. -/
theorem Save_reload_failure_keeps_isNew_witness :
    (⟨NewTableRecord true false, "users", "id", ["name"], 0, [7]⟩ : Entity).tr.isReadOnly = false ∧
    (⟨NewTableRecord true false, "users", "id", ["name"], 0, [7]⟩ : Entity).tr.isNew = true ∧
    ({ Conn.ok [] 1 [] with prepareFail := some reloadFailureMsg } : Conn).execFail = none ∧
    ({ Conn.ok [] 1 [] with prepareFail := some reloadFailureMsg } : Conn).lastIdFail = none ∧
    (LoadByID
        { ({ Conn.ok [] 1 [] with prepareFail := some reloadFailureMsg } : Conn) with
            rows := ({ Conn.ok [] 1 [] with prepareFail := some reloadFailureMsg } : Conn).rows ++
              [⟨({ Conn.ok [] 1 [] with prepareFail := some reloadFailureMsg } : Conn).nextId,
                getFieldsValueNoPrimary ⟨NewTableRecord true false, "users", "id", ["name"], 0, [7]⟩⟩],
            nextId := ({ Conn.ok [] 1 [] with prepareFail := some reloadFailureMsg } : Conn).nextId + 1 }
        ([] ++ [.exec (genSaveQuery ⟨NewTableRecord true false, "users", "id", ["name"], 0, [7]⟩)
                  (getFieldsValueNoPrimary ⟨NewTableRecord true false, "users", "id", ["name"], 0, [7]⟩),
                .lastInsertId])
        ⟨NewTableRecord true false, "users", "id", ["name"], 0, [7]⟩
        ({ Conn.ok [] 1 [] with prepareFail := some reloadFailureMsg } : Conn).nextId).err =
      some (.connector reloadFailureMsg) ∧
    ((Save { Conn.ok [] 1 [] with prepareFail := some reloadFailureMsg } []
        ⟨NewTableRecord true false, "users", "id", ["name"], 0, [7]⟩).err = some (.connector reloadFailureMsg) ∧
      (Save { Conn.ok [] 1 [] with prepareFail := some reloadFailureMsg } []
        ⟨NewTableRecord true false, "users", "id", ["name"], 0, [7]⟩).ent.tr.isNew = true ∧
      (Save { Conn.ok [] 1 [] with prepareFail := some reloadFailureMsg } []
        ⟨NewTableRecord true false, "users", "id", ["name"], 0, [7]⟩).conn.rows =
        ({ Conn.ok [] 1 [] with prepareFail := some reloadFailureMsg } : Conn).rows ++
          [⟨({ Conn.ok [] 1 [] with prepareFail := some reloadFailureMsg } : Conn).nextId,
            getFieldsValueNoPrimary ⟨NewTableRecord true false, "users", "id", ["name"], 0, [7]⟩⟩]) :=
  ⟨rfl, rfl, rfl, rfl, rfl,
   Save_reload_failure_keeps_isNew { Conn.ok [] 1 [] with prepareFail := some reloadFailureMsg } [] _ _
     rfl rfl rfl rfl rfl⟩

end TableRecord
